import Mathlib

/-!
Verification of the `zkevm-circuits` MPT account-leaf-key gadget
(`src/zkevm-circuits/src/mpt_circuit/account_leaf/account_leaf_key.rs`) and of the
state-test harness (`src/evm-testvectors/src/statetest.rs`).

The circuit gadget is embedded shallowly: every witness cell read by
`AccountLeafKeyConfig::configure` (at its various rotations) becomes a field of
`LeafKeyWitness`, valued in `ℚ`.  The prime field of the proving backend enters the
constraints only through `+`, `-` and `*` with small integer constants, so a
characteristic-zero field is a faithful carrier for the emitted polynomial
equations.  Each `require!` of the source, together with the product of the
`ifx!` conditions surrounding it, becomes one equation; `ifx! {c => a} elsex {b}`
used as a value becomes `c * a + (1 - c) * b`, `not!(x)` becomes `1 - x`, and
`or::expr([a, b])` becomes `a + b - a * b`, following the constraint-builder DSL.
-/

/-- Tail of the random-linear-combination: pairs each expression with the matching
entry of the multiplier sequence and sums the products (extra entries of either
list are ignored, as with the zipped iterators of the source). -/
@[simp] def rlcProducts : List ℚ → List ℚ → ℚ
  | [], _ => 0
  | _, [] => 0
  | v :: vs, m :: ms => v * m + rlcProducts vs ms

/-- Mirror of `rlc::expr`: the first expression is taken as-is and every later
expression is multiplied by the matching entry of the multiplier sequence. -/
@[simp] def rlcExpr : List ℚ → List ℚ → ℚ
  | [], _ => 0
  | v :: vs, ms => v + rlcProducts vs ms

/-- `or::expr` of `gadgets::util` on two expressions. -/
@[simp] def or_e (a b : ℚ) : ℚ := a + b - a * b

/-- The witness cells read by `AccountLeafKeyConfig::configure` for one
account-leaf-key row.

`bytes n` is the `n`-th entry of `[s_main.rlp_bytes(), c_main.rlp_bytes()].concat()`
on the current row: index 0 is `s_main.rlp1`, index 1 is `s_main.rlp2`, index
`2 + i` is `s_main.bytes[i]`, index 34 is `c_main.rlp1` and index 35 is
`c_main.rlp2` (only those first 36 columns are read by this gadget).  `r n` is the
`n`-th entry of the declared multiplier sequence `ctx.r`.

The `branch_*`, `is_short_*`, `is_long_*` and `nibbles_counter*` fields are the
`BranchNodeInfo` cells of the branch-init row at rotation `rot_branch_init`;
`nibbles_counter_above` is the counter of the branch one trie level above
(`branch.nibbles_counter().prev()`).  The `*_first_child` fields sit at rotation
`rot_first_child`, and `key_rlc_branch_above` / `key_mult_branch_above` are
`accs.key.rlc` / `accs.key.mult` at rotation `rot_first_child_prev`. -/
structure LeafKeyWitness where
  bytes : ℕ → ℚ
  r : ℕ → ℚ
  acc_s_rlc : ℚ
  acc_s_mult : ℚ
  key_rlc : ℚ
  address_rlc : ℚ
  not_first_level : ℚ
  nfl_branch_init : ℚ
  nfl_first_child : ℚ
  key_rlc_branch : ℚ
  key_mult_branch : ℚ
  key_rlc_branch_above : ℚ
  key_mult_branch_above : ℚ
  branch_is_placeholder : ℚ
  branch_is_extension : ℚ
  branch_is_c16 : ℚ
  branch_is_c1 : ℚ
  is_short_c16 : ℚ
  is_short_c1 : ℚ
  is_long_even_c16 : ℚ
  is_long_even_c1 : ℚ
  is_long_odd_c16 : ℚ
  is_long_odd_c1 : ℚ
  nibbles_counter : ℚ
  nibbles_counter_above : ℚ
  is_non_existing_account : ℚ
  is_account_delete : ℚ
  sel2_first_child : ℚ

/-- `ifx! {a!(position_cols.not_first_level) => { branch.is_placeholder() }}`:
the branch above the leaf counts as a placeholder only above the first level. -/
@[simp] def is_branch_placeholder_e (w : LeafKeyWitness) : ℚ :=
  w.not_first_level * w.branch_is_placeholder

/-- The seven-term sum of products deriving `is_c16` for a leaf under a
placeholder branch from the branch-init cells of the parallel branch
(source lines 168-174). -/
@[simp] def is_c16_formula (w : LeafKeyWitness) : ℚ :=
  (1 - w.branch_is_extension) * w.branch_is_c1
    + w.is_short_c16 * w.branch_is_c16
    + w.is_short_c1 * w.branch_is_c1
    + w.is_long_even_c16 * w.branch_is_c1
    + w.is_long_even_c1 * w.branch_is_c16
    + w.is_long_odd_c16 * w.branch_is_c16
    + w.is_long_odd_c1 * w.branch_is_c1

/-- The seven products of `is_c16_formula` listed individually, in source order. -/
@[simp] def c1_terms (w : LeafKeyWitness) : List ℚ :=
  [(1 - w.branch_is_extension) * w.branch_is_c1,
   w.is_short_c16 * w.branch_is_c16,
   w.is_short_c1 * w.branch_is_c1,
   w.is_long_even_c16 * w.branch_is_c1,
   w.is_long_even_c1 * w.branch_is_c16,
   w.is_long_odd_c16 * w.branch_is_c16,
   w.is_long_odd_c1 * w.branch_is_c1]

/-- Placeholder case: checkpointed key RLC, zero when the placeholder branch is
in the first trie level (`not_first_level` at `rot_branch_init` is 0). -/
@[simp] def key_rlc_prev_ph (w : LeafKeyWitness) : ℚ :=
  w.nfl_branch_init * w.key_rlc_branch_above

/-- Placeholder case: checkpointed key multiplier, one when the placeholder
branch is in the first trie level. -/
@[simp] def key_mult_prev_ph (w : LeafKeyWitness) : ℚ :=
  w.nfl_branch_init * w.key_mult_branch_above + (1 - w.nfl_branch_init) * 1

/-- Placeholder case: nibble count read from the branch above the placeholder,
zero when the branch is in the first level (`not_first_level` at
`rot_first_child` is 0). -/
@[simp] def nibbles_prev_ph (w : LeafKeyWitness) : ℚ :=
  w.nfl_first_child * w.nibbles_counter_above

/-- The `key_rlc_prev` value produced by the big placeholder `ifx!` split. -/
@[simp] def key_rlc_prev_e (w : LeafKeyWitness) : ℚ :=
  is_branch_placeholder_e w * key_rlc_prev_ph w
    + (1 - is_branch_placeholder_e w) * (w.not_first_level * w.key_rlc_branch)

/-- The `key_mult_prev` value produced by the big placeholder `ifx!` split. -/
@[simp] def key_mult_prev_e (w : LeafKeyWitness) : ℚ :=
  is_branch_placeholder_e w * key_mult_prev_ph w
    + (1 - is_branch_placeholder_e w)
        * (w.not_first_level * w.key_mult_branch + (1 - w.not_first_level) * 1)

/-- The `nibbles_count_prev` value produced by the big placeholder `ifx!` split. -/
@[simp] def nibbles_count_prev_e (w : LeafKeyWitness) : ℚ :=
  is_branch_placeholder_e w * nibbles_prev_ph w
    + (1 - is_branch_placeholder_e w) * (w.not_first_level * w.nibbles_counter)

/-- The `is_c16` value produced by the big placeholder `ifx!` split. -/
@[simp] def is_c16_e (w : LeafKeyWitness) : ℚ :=
  is_branch_placeholder_e w * is_c16_formula w
    + (1 - is_branch_placeholder_e w) * (w.not_first_level * w.branch_is_c16)

/-- `key_mult`: `key_mult_prev` times `r[0]` if `is_c16`, else times 1. -/
@[simp] def key_mult_e (w : LeafKeyWitness) : ℚ :=
  key_mult_prev_e w * (is_c16_e w * w.r 0 + (1 - is_c16_e w) * 1)

/-- The 33 expressions folded into the key RLC: entries 3 to 35 of the
concatenated row, the first one replaced by `(byte - 48) * is_c16 * key_mult_prev`
and every later one multiplied by `key_mult` (source lines 245-257). -/
@[simp] def key_terms (w : LeafKeyWitness) : List ℚ :=
  [(w.bytes 3 - 48) * is_c16_e w * key_mult_prev_e w,
   w.bytes 4 * key_mult_e w, w.bytes 5 * key_mult_e w, w.bytes 6 * key_mult_e w,
   w.bytes 7 * key_mult_e w, w.bytes 8 * key_mult_e w, w.bytes 9 * key_mult_e w,
   w.bytes 10 * key_mult_e w, w.bytes 11 * key_mult_e w, w.bytes 12 * key_mult_e w,
   w.bytes 13 * key_mult_e w, w.bytes 14 * key_mult_e w, w.bytes 15 * key_mult_e w,
   w.bytes 16 * key_mult_e w, w.bytes 17 * key_mult_e w, w.bytes 18 * key_mult_e w,
   w.bytes 19 * key_mult_e w, w.bytes 20 * key_mult_e w, w.bytes 21 * key_mult_e w,
   w.bytes 22 * key_mult_e w, w.bytes 23 * key_mult_e w, w.bytes 24 * key_mult_e w,
   w.bytes 25 * key_mult_e w, w.bytes 26 * key_mult_e w, w.bytes 27 * key_mult_e w,
   w.bytes 28 * key_mult_e w, w.bytes 29 * key_mult_e w, w.bytes 30 * key_mult_e w,
   w.bytes 31 * key_mult_e w, w.bytes 32 * key_mult_e w, w.bytes 33 * key_mult_e w,
   w.bytes 34 * key_mult_e w, w.bytes 35 * key_mult_e w]

/-- The multiplier sequence `[1.expr()] ++ r` handed to `rlc::expr` for the key
fold (only its first 32 entries are consumed by the zip). -/
@[simp] def key_mults (w : LeafKeyWitness) : List ℚ :=
  [1, w.r 0, w.r 1, w.r 2, w.r 3, w.r 4, w.r 5, w.r 6, w.r 7, w.r 8, w.r 9,
   w.r 10, w.r 11, w.r 12, w.r 13, w.r 14, w.r 15, w.r 16, w.r 17, w.r 18,
   w.r 19, w.r 20, w.r 21, w.r 22, w.r 23, w.r 24, w.r 25, w.r 26, w.r 27,
   w.r 28, w.r 29, w.r 30, w.r 31]

/-- The value required in `accs.key.rlc`: the checkpointed RLC plus the fold of
the leaf's own key bytes. -/
@[simp] def key_rlc_e (w : LeafKeyWitness) : ℚ :=
  key_rlc_prev_e w + rlcExpr (key_terms w) (key_mults w)

/-- The first 36 bytes of the row, `[s_main.rlp_bytes(), c_main.rlp_bytes()].concat()[0..36]`. -/
@[simp] def leaf_bytes (w : LeafKeyWitness) : List ℚ :=
  [w.bytes 0, w.bytes 1, w.bytes 2, w.bytes 3, w.bytes 4, w.bytes 5, w.bytes 6,
   w.bytes 7, w.bytes 8, w.bytes 9, w.bytes 10, w.bytes 11, w.bytes 12,
   w.bytes 13, w.bytes 14, w.bytes 15, w.bytes 16, w.bytes 17, w.bytes 18,
   w.bytes 19, w.bytes 20, w.bytes 21, w.bytes 22, w.bytes 23, w.bytes 24,
   w.bytes 25, w.bytes 26, w.bytes 27, w.bytes 28, w.bytes 29, w.bytes 30,
   w.bytes 31, w.bytes 32, w.bytes 33, w.bytes 34, w.bytes 35]

/-- The declared multiplier sequence used for the 36-byte row RLC (35 entries
are consumed by the zip). -/
@[simp] def leaf_r (w : LeafKeyWitness) : List ℚ :=
  [w.r 0, w.r 1, w.r 2, w.r 3, w.r 4, w.r 5, w.r 6, w.r 7, w.r 8, w.r 9,
   w.r 10, w.r 11, w.r 12, w.r 13, w.r 14, w.r 15, w.r 16, w.r 17, w.r 18,
   w.r 19, w.r 20, w.r 21, w.r 22, w.r 23, w.r 24, w.r 25, w.r 26, w.r 27,
   w.r 28, w.r 29, w.r 30, w.r 31, w.r 32, w.r 33, w.r 34]

/-- `require!(a!(s_main.rlp1) => 248)`. -/
@[simp] def rlp1_constraint (w : LeafKeyWitness) : Prop := w.bytes 0 = 248

/-- `require!(a!(accs.acc_s.rlc) => rlc)` for the 36-byte row RLC. -/
@[simp] def acc_s_constraint (w : LeafKeyWitness) : Prop :=
  w.acc_s_rlc = rlcExpr (leaf_bytes w) (leaf_r w)

/-- `require!(a!(accs.key.rlc) => a!(address_rlc))`, gated by the surrounding
not-placeholder `elsex` branch and by `not!(is_non_existing_account_proof)`. -/
@[simp] def address_constraint (w : LeafKeyWitness) : Prop :=
  (1 - is_branch_placeholder_e w) * (1 - w.is_non_existing_account)
      * (w.key_rlc - w.address_rlc) = 0

/-- `ifx! {not!(is_c16) => { require!(a!(s_main.bytes[1]) => 32) }}`. -/
@[simp] def even_marker_constraint (w : LeafKeyWitness) : Prop :=
  (1 - is_c16_e w) * (w.bytes 3 - 32) = 0

/-- `require!(a!(accs.key.rlc) => rlc)` for the key fold. -/
@[simp] def key_rlc_constraint (w : LeafKeyWitness) : Prop :=
  w.key_rlc = key_rlc_e w

/-- `let key_len = a!(s_main.bytes[0]) - 128.expr()`. -/
@[simp] def key_len_e (w : LeafKeyWitness) : ℚ := w.bytes 2 - 128

/-- `num_nibbles`: `key_len * 2 - 1` if `is_c16` else `(key_len - 1) * 2`. -/
@[simp] def num_nibbles_e (w : LeafKeyWitness) : ℚ :=
  is_c16_e w * (key_len_e w * 2 - 1) + (1 - is_c16_e w) * ((key_len_e w - 1) * 2)

/-- `require!(nibbles_count_prev + num_nibbles => 64)`. -/
@[simp] def nibbles_constraint (w : LeafKeyWitness) : Prop :=
  nibbles_count_prev_e w + num_nibbles_e w = 64

/-- `require!(or::expr([is_leaf_placeholder, branch.is_placeholder()]) => true)`,
gated by `a!(proof_type.is_account_delete_mod)`; emitted on the C side only. -/
@[simp] def account_delete_constraint (w : LeafKeyWitness) : Prop :=
  w.is_account_delete * (or_e w.sel2_first_child w.branch_is_placeholder - 1) = 0

/-- All equations emitted by `AccountLeafKeyConfig::configure` for one
account-leaf-key row (`is_s` distinguishes the S-side from the C-side call; the
account-delete gate exists only on the C side).  The `RMult` fixed-table lookup
and the trailing-byte range condition reference tables outside this module and
are not needed by any claim. -/
@[simp] def LeafKeyConstraints (is_s : Bool) (w : LeafKeyWitness) : Prop :=
  rlp1_constraint w ∧ acc_s_constraint w ∧ address_constraint w
    ∧ even_marker_constraint w ∧ key_rlc_constraint w ∧ nibbles_constraint w
    ∧ (is_s = false → account_delete_constraint w)

/-- The two row types handled by `AccountLeafKeyConfig::assign` (the full
`MptWitnessRowType` enum has more variants; only these two reach this gadget). -/
inductive MptWitnessRowType where
  | AccountLeafKeyS
  | AccountLeafKeyC
  deriving DecidableEq

/-- The per-proof accumulator fields of `ProofValues` read by the assignment
phase of this gadget. -/
structure ProofValues where
  key_rlc : ℚ
  key_rlc_mult : ℚ
  key_rlc_prev : ℚ
  key_rlc_mult_prev : ℚ
  is_branch_s_placeholder : Bool
  is_branch_c_placeholder : Bool

/-- The `(key_rlc_new, key_rlc_mult_new)` starting state chosen by
`AccountLeafKeyConfig::assign` (source lines 350-358): the checkpoint
`(key_rlc_prev, key_rlc_mult_prev)` when the row's side sits under a placeholder
branch, the running `(key_rlc, key_rlc_mult)` otherwise. -/
@[simp] def assign_key_rlc_start (pv : ProofValues) (t : MptWitnessRowType) : ℚ × ℚ :=
  if (pv.is_branch_s_placeholder ∧ t = MptWitnessRowType.AccountLeafKeyS)
      ∨ (pv.is_branch_c_placeholder ∧ t = MptWitnessRowType.AccountLeafKeyC) then
    (pv.key_rlc_prev, pv.key_rlc_mult_prev)
  else
    (pv.key_rlc, pv.key_rlc_mult)

/-- A satisfying assignment for an account-leaf-key row in the first trie level:
the row bytes follow the documented example `[248, 106, 161, 32, ...]` shape
(with the key bytes zero), the multiplier sequence is zero, and every selector
cell is zero. -/
@[simp] def wBase : LeafKeyWitness where
  bytes := fun n => if n = 0 then 248 else if n = 2 then 161 else if n = 3 then 32 else 0
  r := fun _ => 0
  acc_s_rlc := 248
  acc_s_mult := 0
  key_rlc := 0
  address_rlc := 0
  not_first_level := 0
  nfl_branch_init := 0
  nfl_first_child := 0
  key_rlc_branch := 0
  key_mult_branch := 0
  key_rlc_branch_above := 0
  key_mult_branch_above := 0
  branch_is_placeholder := 0
  branch_is_extension := 0
  branch_is_c16 := 0
  branch_is_c1 := 1
  is_short_c16 := 0
  is_short_c1 := 0
  is_long_even_c16 := 0
  is_long_even_c1 := 0
  is_long_odd_c16 := 0
  is_long_odd_c1 := 0
  nibbles_counter := 0
  nibbles_counter_above := 0
  is_non_existing_account := 0
  is_account_delete := 0
  sel2_first_child := 0

/-- A satisfying assignment for an account-leaf-key row sitting right below a
placeholder branch whose own level is the first one: the checkpoint restart
yields `(0, 1)`, the accumulated key RLC is 0, and the surrounding circuit's
`address_rlc` is 7, so the two differ while every emitted equation holds. -/
@[simp] def wPlaceholder : LeafKeyWitness :=
  { wBase with
    address_rlc := 7
    not_first_level := 1
    key_rlc_branch := 3
    key_mult_branch := 5
    branch_is_placeholder := 1
    branch_is_c16 := 1
    branch_is_c1 := 0
    nibbles_counter := 9 }

/-- A C-side delete-proof assignment: the branch above is a placeholder, so the
account-delete admissibility gate is satisfied. -/
@[simp] def wDeleteC : LeafKeyWitness :=
  { wPlaceholder with is_account_delete := 1 }

/-- An S-side assignment with the account-delete flag raised but neither a
placeholder leaf nor a placeholder branch: satisfiable on the S side because the
admissibility gate is only emitted on the C side. -/
@[simp] def wDeleteS : LeafKeyWitness :=
  { wBase with is_account_delete := 1 }

example : LeafKeyConstraints true wBase := by norm_num
example : LeafKeyConstraints false wBase := by norm_num
example : LeafKeyConstraints false wPlaceholder := by norm_num
example : LeafKeyConstraints false wDeleteC := by norm_num
example : LeafKeyConstraints true wDeleteS := by norm_num

/-!
Embedding of the state-test harness (`src/evm-testvectors/src/statetest.rs`).
Addresses, `U256` words, code hashes and opcodes are carried as `ℕ`, byte
strings as `List ℕ`, and the two state maps (`sdb`, `code_db`) as total
functions, matching `get_account`'s behaviour of always yielding an account
value.  Expected storage and actual storage are association lists standing for
the `HashMap`s of the source.
-/

/-- The error enum `StateTestError`, with each variant's payload. -/
inductive StateTestError where
  | CircuitInput (msg : String)
  | BalanceMismatch (expected found : ℕ)
  | NonceMismatch (expected found : ℕ)
  | CodeMismatch (expected found : List ℕ)
  | StorageMismatch (slot expected found : ℕ)
  | TestMaxGasLimit (gas : ℕ)
  | UnimplementedOpcode (op : String)
  deriving DecidableEq

/-- An account as the state database returns it: balance, nonce, code hash and
storage map. -/
structure StAccount where
  balance : ℕ
  nonce : ℕ
  code_hash : ℕ
  storage : List (ℕ × ℕ)

/-- The expected post state for one address: each declared (`some`) field is
checked, `none` fields are skipped; `storage` lists the expected slots. -/
structure AccountMatch where
  balance : Option ℕ
  nonce : Option ℕ
  code : Option (List ℕ)
  storage : List (ℕ × ℕ)

/-- The parts of `CircuitInputBuilder` read by `check_post`: the state database
and the code database. -/
structure Builder where
  sdb : ℕ → StAccount
  code_db : ℕ → List ℕ

/-- The balance comparison of `check_post`: an error exactly when a balance is
declared and differs from the actual one. -/
@[simp] def check_balance (actual : StAccount) (expected : Option ℕ) :
    Except StateTestError Unit :=
  match expected with
  | some v =>
    if v = actual.balance then Except.ok ()
    else Except.error (StateTestError.BalanceMismatch v actual.balance)
  | none => Except.ok ()

/-- The nonce comparison of `check_post`. -/
@[simp] def check_nonce (actual : StAccount) (expected : Option ℕ) :
    Except StateTestError Unit :=
  match expected with
  | some v =>
    if v = actual.nonce then Except.ok ()
    else Except.error (StateTestError.NonceMismatch v actual.nonce)
  | none => Except.ok ()

/-- The actual code of an account: empty when the code hash is zero, otherwise
the code database entry for the hash. -/
@[simp] def actual_code (builder : Builder) (actual : StAccount) : List ℕ :=
  if actual.code_hash = 0 then [] else builder.code_db actual.code_hash

/-- The code comparison of `check_post`: a zero code hash is compared as empty
code. -/
@[simp] def check_code (builder : Builder) (actual : StAccount)
    (expected : Option (List ℕ)) : Except StateTestError Unit :=
  match expected with
  | some expected_code =>
    if actual_code builder actual = expected_code then Except.ok ()
    else Except.error
      (StateTestError.CodeMismatch expected_code (actual_code builder actual))
  | none => Except.ok ()

/-- The storage loop of `check_post`: each expected slot is compared against the
actual stored value, a slot absent from the actual map counting as zero. -/
@[simp] def check_storage (actual : StAccount) :
    List (ℕ × ℕ) → Except StateTestError Unit
  | [] => Except.ok ()
  | (slot, expected_value) :: rest =>
    let actual_value := (List.lookup slot actual.storage).getD 0
    if expected_value = actual_value then check_storage actual rest
    else Except.error (StateTestError.StorageMismatch slot expected_value actual_value)

/-- The per-address body of `check_post`'s loop, with the source's early-return
order: balance, then nonce, then code, then the storage slots. -/
@[simp] def check_account (builder : Builder) (address : ℕ)
    (expected : AccountMatch) : Except StateTestError Unit :=
  let actual := builder.sdb address
  match check_balance actual expected.balance with
  | Except.error e => Except.error e
  | Except.ok _ =>
    match check_nonce actual expected.nonce with
    | Except.error e => Except.error e
    | Except.ok _ =>
      match check_code builder actual expected.code with
      | Except.error e => Except.error e
      | Except.ok _ => check_storage actual expected.storage

/-- `StateTest::check_post`: every address of the expected post-state map is
checked in turn. -/
@[simp] def check_post (builder : Builder) :
    List (ℕ × AccountMatch) → Except StateTestError Unit
  | [] => Except.ok ()
  | (address, expected) :: rest =>
    match check_account builder address expected with
    | Except.error e => Except.error e
    | Except.ok _ => check_post builder rest

/-- The harness configuration: gas cap and the opcodes not yet implemented. -/
structure StateTestConfig where
  max_gas : ℕ
  unimplemented_opcodes : List ℕ

/-- The fields of the first geth trace inspected by `StateTest::run`: the total
gas and the opcode of each `struct_logs` step. -/
structure GethTrace where
  gas : ℕ
  struct_logs : List ℕ

/-- The decision logic of `StateTest::run` once the geth trace and the circuit
input builder are obtained: reject over-gas traces, then traces containing an
unimplemented opcode, then compare the post state; a passing test returns
`ok` after the (panicking-on-failure) circuit run. -/
@[simp] def run (config : StateTestConfig) (trace : GethTrace) (builder : Builder)
    (post : List (ℕ × AccountMatch)) : Except StateTestError Unit :=
  if config.max_gas < trace.gas then
    Except.error (StateTestError.TestMaxGasLimit trace.gas)
  else
    match trace.struct_logs.find? (fun op => config.unimplemented_opcodes.contains op) with
    | some op => Except.error (StateTestError.UnimplementedOpcode (toString op))
    | none => check_post builder post

/-- The 36-byte row RLC written as the spec states it: the first encoded byte
plus each later byte times the matching entry of the declared per-column
multiplier sequence. -/
def spec_leaf_rlc (w : LeafKeyWitness) : ℚ :=
  w.bytes 0 + w.bytes 1 * w.r 0 +
    w.bytes 2 * w.r 1 +
    w.bytes 3 * w.r 2 +
    w.bytes 4 * w.r 3 +
    w.bytes 5 * w.r 4 +
    w.bytes 6 * w.r 5 +
    w.bytes 7 * w.r 6 +
    w.bytes 8 * w.r 7 +
    w.bytes 9 * w.r 8 +
    w.bytes 10 * w.r 9 +
    w.bytes 11 * w.r 10 +
    w.bytes 12 * w.r 11 +
    w.bytes 13 * w.r 12 +
    w.bytes 14 * w.r 13 +
    w.bytes 15 * w.r 14 +
    w.bytes 16 * w.r 15 +
    w.bytes 17 * w.r 16 +
    w.bytes 18 * w.r 17 +
    w.bytes 19 * w.r 18 +
    w.bytes 20 * w.r 19 +
    w.bytes 21 * w.r 20 +
    w.bytes 22 * w.r 21 +
    w.bytes 23 * w.r 22 +
    w.bytes 24 * w.r 23 +
    w.bytes 25 * w.r 24 +
    w.bytes 26 * w.r 25 +
    w.bytes 27 * w.r 26 +
    w.bytes 28 * w.r 27 +
    w.bytes 29 * w.r 28 +
    w.bytes 30 * w.r 29 +
    w.bytes 31 * w.r 30 +
    w.bytes 32 * w.r 31 +
    w.bytes 33 * w.r 32 +
    w.bytes 34 * w.r 33 +
    w.bytes 35 * w.r 34

/-- Claim C6: every account-leaf-key row is constrained to start with the long
RLP list marker 248; a witness with any other first byte violates
`rlp1_constraint` and is unsatisfiable. -/
theorem c6_long_rlp_marker (w : LeafKeyWitness) (is_s : Bool)
    (h : LeafKeyConstraints is_s w) : w.bytes 0 = 248 := h.1

/-- Witness for C6 at the concrete satisfying assignment `wBase`. -/
theorem c6_long_rlp_marker_witness : wBase.bytes 0 = 248 :=
  c6_long_rlp_marker wBase true (by norm_num)

/-- Claim C7: the constraints force the RLC of the first 36 encoded bytes of the
row, taken with the declared per-column multiplier sequence, to equal the value
declared in the running-accumulator column `accs.acc_s.rlc`. -/
theorem c7_intermediate_rlc (w : LeafKeyWitness) (is_s : Bool)
    (h : LeafKeyConstraints is_s w) : w.acc_s_rlc = spec_leaf_rlc w := by
  have h2 := h.2.1
  simp only [acc_s_constraint, leaf_bytes, leaf_r, rlcExpr, rlcProducts] at h2
  rw [h2]
  simp only [spec_leaf_rlc]
  ring

/-- Witness for C7 at the concrete satisfying assignment `wBase`. -/
theorem c7_intermediate_rlc_witness : wBase.acc_s_rlc = spec_leaf_rlc wBase :=
  c7_intermediate_rlc wBase true (by norm_num)

/-- Claim C3: the constraints force (nibbles consumed above the leaf) plus the
leaf's own contribution to equal 64, the contribution being `2 * key_len - 1`
under odd parity and `2 * (key_len - 1)` under even parity with
`key_len = s_main.bytes[0] - 128`; a witness with any other split violates
`nibbles_constraint` and is unsatisfiable. -/
theorem c3_nibble_closure (w : LeafKeyWitness) (is_s : Bool)
    (h : LeafKeyConstraints is_s w) :
    (is_c16_e w = 1 → nibbles_count_prev_e w + (2 * key_len_e w - 1) = 64) ∧
    (is_c16_e w = 0 → nibbles_count_prev_e w + 2 * (key_len_e w - 1) = 64) := by
  have h6 := h.2.2.2.2.2.1
  simp only [nibbles_constraint, num_nibbles_e] at h6
  constructor <;> intro hc <;> rw [hc] at h6 <;> linarith

/-- Witness for C3 at the concrete satisfying assignment `wBase` (even parity,
33 key bytes, leaf in the first trie level). -/
theorem c3_nibble_closure_witness :
    nibbles_count_prev_e wBase + 2 * (key_len_e wBase - 1) = 64 :=
  (c3_nibble_closure wBase true (by norm_num)).2 (by norm_num)

/-- Counterexample to claim C2 as stated: `wPlaceholder` satisfies every emitted
equation of the C-side account-leaf-key gadget, is not a non-existence-proof
row, and yet its accumulated key RLC differs from `address_rlc` — the equality
is also left unenforced when the branch above the leaf is a placeholder. -/
theorem c2_counterexample :
    LeafKeyConstraints false wPlaceholder
      ∧ wPlaceholder.is_non_existing_account = 0
      ∧ wPlaceholder.key_rlc ≠ wPlaceholder.address_rlc :=
  ⟨by norm_num, by norm_num, by norm_num⟩

/-- Claim C2 as amended: for every account-leaf key row that is neither a
non-existence-proof row nor below a placeholder branch, the constraints force
the accumulated key RLC to equal the supplied `address_rlc`. -/
theorem c2_address_rlc_amended (w : LeafKeyWitness) (is_s : Bool)
    (h : LeafKeyConstraints is_s w) (hph : is_branch_placeholder_e w = 0)
    (hne : w.is_non_existing_account = 0) : w.key_rlc = w.address_rlc := by
  have h3 := h.2.2.1
  simp only [address_constraint] at h3
  rw [hph, hne] at h3
  have h4 : w.key_rlc - w.address_rlc = 0 := by linarith [h3]
  linarith

/-- Witness for the amended C2 at the concrete satisfying assignment `wBase`. -/
theorem c2_address_rlc_amended_witness : wBase.key_rlc = wBase.address_rlc :=
  c2_address_rlc_amended wBase true (by norm_num) (by norm_num) (by norm_num)

/-- Claim C4: under a placeholder branch the key-RLC fold restarts from the
checkpoint saved at the branch one trie level above the placeholder (value 0,
multiplier 1 when the placeholder branch is itself in the first level), folding
in nothing from the placeholder row; and the assignment phase mirrors the same
restore through `key_rlc_prev` / `key_rlc_mult_prev`. -/
theorem c4_placeholder_restart (w : LeafKeyWitness) (is_s : Bool)
    (h : LeafKeyConstraints is_s w) (hph : is_branch_placeholder_e w = 1) :
    (w.nfl_branch_init = 1 →
        key_rlc_prev_e w = w.key_rlc_branch_above
          ∧ key_mult_prev_e w = w.key_mult_branch_above
          ∧ w.key_rlc = w.key_rlc_branch_above + rlcExpr (key_terms w) (key_mults w)) ∧
    (w.nfl_branch_init = 0 →
        key_rlc_prev_e w = 0 ∧ key_mult_prev_e w = 1
          ∧ w.key_rlc = 0 + rlcExpr (key_terms w) (key_mults w)) ∧
    (∀ pv : ProofValues, pv.is_branch_s_placeholder = true →
        assign_key_rlc_start pv MptWitnessRowType.AccountLeafKeyS
          = (pv.key_rlc_prev, pv.key_rlc_mult_prev)) ∧
    (∀ pv : ProofValues, pv.is_branch_c_placeholder = true →
        assign_key_rlc_start pv MptWitnessRowType.AccountLeafKeyC
          = (pv.key_rlc_prev, pv.key_rlc_mult_prev)) := by
  have hk := h.2.2.2.2.1
  simp only [key_rlc_constraint, key_rlc_e] at hk
  refine ⟨?_, ?_, ?_, ?_⟩
  · intro hb
    have hprev : key_rlc_prev_e w = w.key_rlc_branch_above := by
      simp only [key_rlc_prev_e, key_rlc_prev_ph]; rw [hph, hb]; ring
    have hmult : key_mult_prev_e w = w.key_mult_branch_above := by
      simp only [key_mult_prev_e, key_mult_prev_ph]; rw [hph, hb]; ring
    exact ⟨hprev, hmult, by rw [hk, hprev]⟩
  · intro hb
    have hprev : key_rlc_prev_e w = 0 := by
      simp only [key_rlc_prev_e, key_rlc_prev_ph]; rw [hph, hb]; ring
    have hmult : key_mult_prev_e w = 1 := by
      simp only [key_mult_prev_e, key_mult_prev_ph]; rw [hph, hb]; ring
    exact ⟨hprev, hmult, by rw [hk, hprev]⟩
  · intro pv hpv
    simp [assign_key_rlc_start, hpv]
  · intro pv hpv
    simp [assign_key_rlc_start, hpv]

/-- Witness for C4 at `wPlaceholder`, whose placeholder branch sits in the first
trie level, so the fold restarts from value 0 and multiplier 1. -/
theorem c4_placeholder_restart_witness :
    key_rlc_prev_e wPlaceholder = 0 ∧ key_mult_prev_e wPlaceholder = 1
      ∧ wPlaceholder.key_rlc
          = 0 + rlcExpr (key_terms wPlaceholder) (key_mults wPlaceholder) :=
  (c4_placeholder_restart wPlaceholder false (by norm_num) (by norm_num)).2.1
    (by norm_num)

/-- Claim C8: on the C side, a raised account-delete flag forces the C-side leaf
to be a placeholder leaf or the branch above to be a placeholder; and no such
gate exists on the S side, witnessed by the satisfiable S-side assignment
`wDeleteS` with the flag raised and both predicates zero. -/
theorem c8_account_delete_gate (w : LeafKeyWitness)
    (h : LeafKeyConstraints false w) (hd : w.is_account_delete = 1)
    (hsel : w.sel2_first_child = 0 ∨ w.sel2_first_child = 1)
    (hbr : w.branch_is_placeholder = 0 ∨ w.branch_is_placeholder = 1) :
    (w.sel2_first_child = 1 ∨ w.branch_is_placeholder = 1)
      ∧ LeafKeyConstraints true wDeleteS ∧ wDeleteS.is_account_delete = 1
      ∧ wDeleteS.sel2_first_child = 0 ∧ wDeleteS.branch_is_placeholder = 0 := by
  have hdel := h.2.2.2.2.2.2 rfl
  simp only [account_delete_constraint, or_e] at hdel
  rw [hd] at hdel
  refine ⟨?_, by norm_num, by norm_num, by norm_num, by norm_num⟩
  rcases hsel with hs | hs <;> rcases hbr with hb | hb
  · exfalso; rw [hs, hb] at hdel; norm_num at hdel
  · exact Or.inr hb
  · exact Or.inl hs
  · exact Or.inl hs

/-- Witness for C8 at the concrete C-side delete assignment `wDeleteC`, whose
branch above is a placeholder. -/
theorem c8_account_delete_gate_witness :
    wDeleteC.sel2_first_child = 1 ∨ wDeleteC.branch_is_placeholder = 1 :=
  (c8_account_delete_gate wDeleteC (by norm_num) (by norm_num)
    (Or.inl (by norm_num)) (Or.inr (by norm_num))).1

/-- The key fold under odd parity written as the spec states it: the first key
byte contributes `byte - 48` at the entering multiplier `key_mult_prev`, and
every later key byte is folded at `key_mult_prev` times the next entries of the
multiplier sequence. -/
def spec_odd_key_rlc (w : LeafKeyWitness) : ℚ :=
  key_rlc_prev_e w + (w.bytes 3 - 48) * key_mult_prev_e w
    + w.bytes 4 * (key_mult_prev_e w * w.r 0)
    + w.bytes 5 * (key_mult_prev_e w * w.r 1)
    + w.bytes 6 * (key_mult_prev_e w * w.r 2)
    + w.bytes 7 * (key_mult_prev_e w * w.r 3)
    + w.bytes 8 * (key_mult_prev_e w * w.r 4)
    + w.bytes 9 * (key_mult_prev_e w * w.r 5)
    + w.bytes 10 * (key_mult_prev_e w * w.r 6)
    + w.bytes 11 * (key_mult_prev_e w * w.r 7)
    + w.bytes 12 * (key_mult_prev_e w * w.r 8)
    + w.bytes 13 * (key_mult_prev_e w * w.r 9)
    + w.bytes 14 * (key_mult_prev_e w * w.r 10)
    + w.bytes 15 * (key_mult_prev_e w * w.r 11)
    + w.bytes 16 * (key_mult_prev_e w * w.r 12)
    + w.bytes 17 * (key_mult_prev_e w * w.r 13)
    + w.bytes 18 * (key_mult_prev_e w * w.r 14)
    + w.bytes 19 * (key_mult_prev_e w * w.r 15)
    + w.bytes 20 * (key_mult_prev_e w * w.r 16)
    + w.bytes 21 * (key_mult_prev_e w * w.r 17)
    + w.bytes 22 * (key_mult_prev_e w * w.r 18)
    + w.bytes 23 * (key_mult_prev_e w * w.r 19)
    + w.bytes 24 * (key_mult_prev_e w * w.r 20)
    + w.bytes 25 * (key_mult_prev_e w * w.r 21)
    + w.bytes 26 * (key_mult_prev_e w * w.r 22)
    + w.bytes 27 * (key_mult_prev_e w * w.r 23)
    + w.bytes 28 * (key_mult_prev_e w * w.r 24)
    + w.bytes 29 * (key_mult_prev_e w * w.r 25)
    + w.bytes 30 * (key_mult_prev_e w * w.r 26)
    + w.bytes 31 * (key_mult_prev_e w * w.r 27)
    + w.bytes 32 * (key_mult_prev_e w * w.r 28)
    + w.bytes 33 * (key_mult_prev_e w * w.r 29)
    + w.bytes 34 * (key_mult_prev_e w * w.r 30)
    + w.bytes 35 * (key_mult_prev_e w * w.r 31)

/-- Claim C5: under even parity the first key byte `s_main.bytes[1]` is forced
to 32; under odd parity the accumulated key RLC equals the checkpoint plus
`(first byte - 48)` at the entering multiplier `key_mult_prev` and each later
key byte at `key_mult_prev` times successive powers of the challenge
(`hr` states that the declared multiplier sequence is geometric, each entry the
base times the previous one). -/
theorem c5_parity_first_byte (w : LeafKeyWitness) (is_s : Bool)
    (h : LeafKeyConstraints is_s w) (hr : ∀ j, w.r (j + 1) = w.r 0 * w.r j) :
    (is_c16_e w = 0 → w.bytes 3 = 32) ∧
    (is_c16_e w = 1 → w.key_rlc = spec_odd_key_rlc w) := by
  constructor
  · intro hc
    have h4 := h.2.2.2.1
    simp only [even_marker_constraint] at h4
    rw [hc] at h4
    have h5 : w.bytes 3 - 32 = 0 := by linarith [h4]
    linarith
  · intro hc
    have hk := h.2.2.2.2.1
    simp only [key_rlc_constraint, key_rlc_e, key_terms, key_mults, key_mult_e,
      rlcExpr, rlcProducts] at hk
    rw [hc] at hk
    rw [hk]
    simp only [spec_odd_key_rlc]
    linear_combination (-(w.bytes 5 * key_mult_prev_e w)) * hr 0 +
      (-(w.bytes 6 * key_mult_prev_e w)) * hr 1 +
      (-(w.bytes 7 * key_mult_prev_e w)) * hr 2 +
      (-(w.bytes 8 * key_mult_prev_e w)) * hr 3 +
      (-(w.bytes 9 * key_mult_prev_e w)) * hr 4 +
      (-(w.bytes 10 * key_mult_prev_e w)) * hr 5 +
      (-(w.bytes 11 * key_mult_prev_e w)) * hr 6 +
      (-(w.bytes 12 * key_mult_prev_e w)) * hr 7 +
      (-(w.bytes 13 * key_mult_prev_e w)) * hr 8 +
      (-(w.bytes 14 * key_mult_prev_e w)) * hr 9 +
      (-(w.bytes 15 * key_mult_prev_e w)) * hr 10 +
      (-(w.bytes 16 * key_mult_prev_e w)) * hr 11 +
      (-(w.bytes 17 * key_mult_prev_e w)) * hr 12 +
      (-(w.bytes 18 * key_mult_prev_e w)) * hr 13 +
      (-(w.bytes 19 * key_mult_prev_e w)) * hr 14 +
      (-(w.bytes 20 * key_mult_prev_e w)) * hr 15 +
      (-(w.bytes 21 * key_mult_prev_e w)) * hr 16 +
      (-(w.bytes 22 * key_mult_prev_e w)) * hr 17 +
      (-(w.bytes 23 * key_mult_prev_e w)) * hr 18 +
      (-(w.bytes 24 * key_mult_prev_e w)) * hr 19 +
      (-(w.bytes 25 * key_mult_prev_e w)) * hr 20 +
      (-(w.bytes 26 * key_mult_prev_e w)) * hr 21 +
      (-(w.bytes 27 * key_mult_prev_e w)) * hr 22 +
      (-(w.bytes 28 * key_mult_prev_e w)) * hr 23 +
      (-(w.bytes 29 * key_mult_prev_e w)) * hr 24 +
      (-(w.bytes 30 * key_mult_prev_e w)) * hr 25 +
      (-(w.bytes 31 * key_mult_prev_e w)) * hr 26 +
      (-(w.bytes 32 * key_mult_prev_e w)) * hr 27 +
      (-(w.bytes 33 * key_mult_prev_e w)) * hr 28 +
      (-(w.bytes 34 * key_mult_prev_e w)) * hr 29 +
      (-(w.bytes 35 * key_mult_prev_e w)) * hr 30

/-- Witness for C5 at the concrete satisfying assignment `wBase` (even parity,
zero multiplier sequence, which is trivially geometric). -/
theorem c5_parity_first_byte_witness : wBase.bytes 3 = 32 :=
  (c5_parity_first_byte wBase true (by norm_num) (fun j => by simp)).1 (by norm_num)

/-- Modelled from the spec: booleanity and mutual exclusion of the selector
cells read by `is_c16_formula` ("exactly one indicator in a declared
mutually-exclusive group is 1"; indicators are boolean field elements).  The
constraints actually enforcing this live in the `BranchNodeInfo` /
extension-node helper modules, which are outside the sources at hand: the
parallel branch is either a plain branch (no extension selector set) or an
extension of exactly one of the six kinds, and the branch parity indicators
`is_c16` / `is_c1` are complementary booleans. -/
abbrev ValidC1Selectors (w : LeafKeyWitness) : Prop :=
  (w.branch_is_c16 = 0 ∨ w.branch_is_c16 = 1) ∧
  w.branch_is_c16 + w.branch_is_c1 = 1 ∧
  (w.is_short_c16 = 0 ∨ w.is_short_c16 = 1) ∧
  (w.is_short_c1 = 0 ∨ w.is_short_c1 = 1) ∧
  (w.is_long_even_c16 = 0 ∨ w.is_long_even_c16 = 1) ∧
  (w.is_long_even_c1 = 0 ∨ w.is_long_even_c1 = 1) ∧
  (w.is_long_odd_c16 = 0 ∨ w.is_long_odd_c16 = 1) ∧
  (w.is_long_odd_c1 = 0 ∨ w.is_long_odd_c1 = 1) ∧
  w.branch_is_extension
      = w.is_short_c16 + w.is_short_c1 + w.is_long_even_c16
        + w.is_long_even_c1 + w.is_long_odd_c16 + w.is_long_odd_c1 ∧
  (w.branch_is_extension = 0 ∨ w.branch_is_extension = 1)

/-- Claim C1 as stated, instantiated at one witness: the derived indicator
flips for a plain parallel branch, is preserved for an extension with an odd
nibble count (any of the four odd-count selectors), flips for an even-count
extension in either encoding, and exactly one term of the sum of products is
non-zero. -/
abbrev C1CaseClaim (w : LeafKeyWitness) : Prop :=
  (w.branch_is_extension = 0 → is_c16_formula w = 1 - w.branch_is_c16) ∧
  (w.is_short_c16 + w.is_short_c1 + w.is_long_odd_c16 + w.is_long_odd_c1 = 1 →
      is_c16_formula w = w.branch_is_c16) ∧
  (w.is_long_even_c16 = 1 → is_c16_formula w = 1 - w.branch_is_c16) ∧
  (w.is_long_even_c1 = 1 → is_c16_formula w = 1 - w.branch_is_c16) ∧
  (c1_terms w).countP (fun t => decide (t ≠ 0)) = 1

/-- Plain parallel branch with `is_c16 = 1`: the derived indicator is 0 and all
seven product terms vanish. -/
@[simp] def wC1a : LeafKeyWitness :=
  { wBase with
    branch_is_c16 := 1
    branch_is_c1 := 0 }

/-- Parallel extension of the odd-count kind `is_short_c1` with `is_c16 = 1`. -/
@[simp] def wC1b : LeafKeyWitness :=
  { wBase with
    branch_is_c16 := 1
    branch_is_c1 := 0
    branch_is_extension := 1
    is_short_c1 := 1 }

/-- Parallel extension of the even-count kind `is_long_even_c1` with
`is_c16 = 1`. -/
@[simp] def wC1c : LeafKeyWitness :=
  { wBase with
    branch_is_c16 := 1
    branch_is_c1 := 0
    branch_is_extension := 1
    is_long_even_c1 := 1 }

/-- Counterexample to claim C1 as stated: at `wC1a` every product term is zero,
so no term is non-zero; at `wC1b` (an odd-count extension selector of the `_c1`
kind) the formula yields `is_c1` instead of the preserved `is_c16`; at `wC1c`
(an even-count extension selector of the `_c1` kind) it yields `is_c16` instead
of the flipped value.  All three assignments satisfy the spec-modelled selector
validity. -/
theorem c1_counterexample :
    (ValidC1Selectors wC1a ∧ ¬ C1CaseClaim wC1a) ∧
    (ValidC1Selectors wC1b ∧ ¬ C1CaseClaim wC1b) ∧
    (ValidC1Selectors wC1c ∧ ¬ C1CaseClaim wC1c) := by
  refine ⟨⟨?_, ?_⟩, ⟨?_, ?_⟩, ⟨?_, ?_⟩⟩ <;>
    norm_num [ValidC1Selectors, C1CaseClaim, is_c16_formula, c1_terms,
      List.countP_cons, List.countP_nil]

/-- Claim C1 as amended: the derived indicator flips for a plain parallel
branch; for an extension it copies the parity factor paired with the active
selector — preserved (`is_c16`) for the `_c16`-suffixed odd selectors and for
`is_long_even_c1`, flipped (`is_c1`) for the `_c1`-suffixed odd selectors and
for `is_long_even_c16` — and at most one term of the sum of products is
non-zero. -/
theorem c1_is_c16_derivation_amended (w : LeafKeyWitness)
    (hv : ValidC1Selectors w) :
    (w.branch_is_extension = 0 → is_c16_formula w = 1 - w.branch_is_c16) ∧
    (w.is_short_c16 = 1 ∨ w.is_long_odd_c16 = 1 →
        is_c16_formula w = w.branch_is_c16) ∧
    (w.is_short_c1 = 1 ∨ w.is_long_odd_c1 = 1 →
        is_c16_formula w = 1 - w.branch_is_c16) ∧
    (w.is_long_even_c16 = 1 → is_c16_formula w = 1 - w.branch_is_c16) ∧
    (w.is_long_even_c1 = 1 → is_c16_formula w = w.branch_is_c16) ∧
    (c1_terms w).countP (fun t => decide (t ≠ 0)) ≤ 1 := by
  obtain ⟨hb16, hsum, h1, h2, h3, h4, h5, h6, hext, hextb⟩ := hv
  have hc1 : w.branch_is_c1 = 1 - w.branch_is_c16 := by linarith
  rcases h1 with h1 | h1 <;> rcases h2 with h2 | h2 <;> rcases h3 with h3 | h3 <;>
    rcases h4 with h4 | h4 <;> rcases h5 with h5 | h5 <;> rcases h6 with h6 | h6 <;>
    rcases hb16 with hb | hb <;>
    rcases hextb with he | he <;>
    first
    | (exfalso
       rw [h1, h2, h3, h4, h5, h6, he] at hext
       revert hext
       norm_num
       done)
    | (refine ⟨?_, ?_, ?_, ?_, ?_, ?_⟩ <;>
       norm_num [h1, h2, h3, h4, h5, h6, hb, hc1, he, is_c16_formula, c1_terms,
         List.countP_cons, List.countP_nil])

/-- Witness for the amended C1 at the concrete valid assignment `wC1a` (plain
parallel branch): the derived indicator is the flipped parity. -/
theorem c1_is_c16_derivation_amended_witness :
    is_c16_formula wC1a = 1 - wC1a.branch_is_c16 :=
  (c1_is_c16_derivation_amended wC1a (by norm_num [ValidC1Selectors])).1
    (by norm_num)

/-- The post-state comparison for one address as the code-level behaviour reads:
every declared (`some`) field matches the actual account — balance, nonce, code
(a zero code hash compared as empty code) — and every expected storage slot
equals the stored value, an absent slot counting as zero. -/
def account_matches (builder : Builder) (address : ℕ) (expected : AccountMatch) : Prop :=
  (∀ v, expected.balance = some v → v = (builder.sdb address).balance) ∧
  (∀ v, expected.nonce = some v → v = (builder.sdb address).nonce) ∧
  (∀ c, expected.code = some c → actual_code builder (builder.sdb address) = c) ∧
  (∀ slot v, (slot, v) ∈ expected.storage →
      v = (List.lookup slot (builder.sdb address).storage).getD 0)

theorem check_balance_ok_iff (actual : StAccount) (expected : Option ℕ) :
    check_balance actual expected = Except.ok ()
      ↔ ∀ v, expected = some v → v = actual.balance := by
  cases expected with
  | none => simp
  | some v =>
    by_cases h : v = actual.balance <;> simp [h]

theorem check_nonce_ok_iff (actual : StAccount) (expected : Option ℕ) :
    check_nonce actual expected = Except.ok ()
      ↔ ∀ v, expected = some v → v = actual.nonce := by
  cases expected with
  | none => simp
  | some v =>
    by_cases h : v = actual.nonce <;> simp [h]

theorem check_code_ok_iff (builder : Builder) (actual : StAccount)
    (expected : Option (List ℕ)) :
    check_code builder actual expected = Except.ok ()
      ↔ ∀ c, expected = some c → actual_code builder actual = c := by
  cases expected with
  | none => simp
  | some c =>
    by_cases h : actual_code builder actual = c <;> simp [h]

theorem check_storage_ok_iff (actual : StAccount) (l : List (ℕ × ℕ)) :
    check_storage actual l = Except.ok ()
      ↔ ∀ slot v, (slot, v) ∈ l →
          v = (List.lookup slot actual.storage).getD 0 := by
  induction l with
  | nil => simp
  | cons p rest ih =>
    obtain ⟨slot, ev⟩ := p
    by_cases h : ev = (List.lookup slot actual.storage).getD 0
    · constructor
      · intro hok s v hin
        rcases List.mem_cons.mp hin with heq | hin2
        · rw [Prod.mk.injEq] at heq
          rw [heq.2, heq.1]
          exact h
        · have hrest : check_storage actual rest = Except.ok () := by
            simpa [h] using hok
          exact (ih.mp hrest) s v hin2
      · intro hall
        have hrest : check_storage actual rest = Except.ok () :=
          ih.mpr (fun s v hin => hall s v (List.mem_cons_of_mem _ hin))
        simpa [h] using hrest
    · constructor
      · intro hok
        exfalso
        simp [h] at hok
      · intro hall
        exact absurd (hall slot ev (List.mem_cons_self _ _)) h

theorem check_account_ok_iff (builder : Builder) (address : ℕ)
    (expected : AccountMatch) :
    check_account builder address expected = Except.ok ()
      ↔ account_matches builder address expected := by
  have hsplit : check_account builder address expected = Except.ok ()
      ↔ check_balance (builder.sdb address) expected.balance = Except.ok ()
        ∧ check_nonce (builder.sdb address) expected.nonce = Except.ok ()
        ∧ check_code builder (builder.sdb address) expected.code = Except.ok ()
        ∧ check_storage (builder.sdb address) expected.storage = Except.ok () := by
    show (match check_balance (builder.sdb address) expected.balance with
      | Except.error e => Except.error e
      | Except.ok _ =>
        match check_nonce (builder.sdb address) expected.nonce with
        | Except.error e => Except.error e
        | Except.ok _ =>
          match check_code builder (builder.sdb address) expected.code with
          | Except.error e => Except.error e
          | Except.ok _ => check_storage (builder.sdb address) expected.storage)
        = Except.ok () ↔ _
    cases h1 : check_balance (builder.sdb address) expected.balance with
    | error e => simp [h1]
    | ok u =>
      cases h2 : check_nonce (builder.sdb address) expected.nonce with
      | error e => simp [h2]
      | ok u2 =>
        cases h3 : check_code builder (builder.sdb address) expected.code with
        | error e => simp [h3]
        | ok u3 => simp
  rw [hsplit, check_balance_ok_iff, check_nonce_ok_iff, check_code_ok_iff,
    check_storage_ok_iff]
  exact Iff.rfl

/-- Claim C10: `check_post` yields `Ok` exactly when every address of the
expected post-state map matches the actual account on each declared field —
balance, nonce, code with a zero code hash compared as empty code — and on
every expected storage slot, an absent actual slot counting as zero; `none`
fields are never checked, so an account with no declared fields always
passes. -/
theorem c10_check_post_iff (builder : Builder) (post : List (ℕ × AccountMatch)) :
    check_post builder post = Except.ok ()
      ↔ ∀ p ∈ post, account_matches builder p.1 p.2 := by
  induction post with
  | nil => simp
  | cons p rest ih =>
    obtain ⟨a, m⟩ := p
    have hstep : check_post builder ((a, m) :: rest)
        = (match check_account builder a m with
           | Except.error e => Except.error e
           | Except.ok _ => check_post builder rest) := rfl
    cases hca : check_account builder a m with
    | error e =>
      have hnm : ¬ account_matches builder a m := by
        rw [← check_account_ok_iff, hca]
        simp
      constructor
      · intro hok
        rw [hstep, hca] at hok
        exact absurd hok (by simp)
      · intro hall
        exact absurd (hall (a, m) (List.mem_cons_self _ _)) hnm
    | ok u =>
      have hm : account_matches builder a m := by
        rw [← check_account_ok_iff, hca]
      rw [hstep, hca]
      show check_post builder rest = Except.ok () ↔ _
      rw [ih]
      constructor
      · intro hall p hp
        rcases List.mem_cons.mp hp with heq | hp2
        · rw [heq]; exact hm
        · exact hall p hp2
      · intro hall p hp
        exact hall p (List.mem_cons_of_mem _ hp)

/-- A concrete builder: every address holds balance 5, nonce 1, a zero code
hash and one storage slot `2 ↦ 3`. -/
def bEx : Builder where
  sdb := fun _ =>
    { balance := 5, nonce := 1, code_hash := 0, storage := [(2, 3)] }
  code_db := fun _ => []

/-- A concrete expected post state exercising the zero-code-hash and
absent-slot-as-zero comparisons, with the nonce left undeclared. -/
def postEx : List (ℕ × AccountMatch) :=
  [(0, { balance := some 5, nonce := none, code := some [], storage := [(2, 3), (7, 0)] })]

/-- Witness for C10: at the concrete builder and post map, every declared field
matches, so `check_post` returns `Ok`. -/
theorem c10_check_post_iff_witness : check_post bEx postEx = Except.ok () :=
  (c10_check_post_iff bEx postEx).mpr (by
    intro p hp
    simp only [postEx, List.mem_singleton] at hp
    subst hp
    simp [account_matches, bEx, actual_code, List.lookup]
    intro slot v hin
    rcases hin with ⟨hs, hv⟩ | ⟨hs, hv⟩ <;> subst hs <;> subst hv <;> rfl)

/-- A concrete harness configuration with a gas cap of 3 and no unimplemented
opcodes. -/
def cfgEx : StateTestConfig where
  max_gas := 3
  unimplemented_opcodes := []

/-- A concrete trace exceeding the gas cap of `cfgEx`. -/
def traceEx : GethTrace where
  gas := 9
  struct_logs := []

/-- Claim C9 as amended: the harness reports mismatches through six pairwise
distinct named error kinds, and a test hitting one fails with that error rather
than being skipped: `run` surfaces an exceeded gas cap as `TestMaxGasLimit`
carrying the observed gas, an unimplemented opcode as `UnimplementedOpcode`
carrying the opcode name, and any `check_post` error — the balance, nonce, code
and storage mismatch kinds, each carrying the expected and found values
injectively — as that very error. -/
theorem c9_error_reporting :
    (∀ (config : StateTestConfig) (trace : GethTrace) (builder : Builder)
        (post : List (ℕ × AccountMatch)),
        config.max_gas < trace.gas →
        run config trace builder post
          = Except.error (StateTestError.TestMaxGasLimit trace.gas)) ∧
    (∀ (config : StateTestConfig) (trace : GethTrace) (builder : Builder)
        (post : List (ℕ × AccountMatch)) (op : ℕ),
        ¬ config.max_gas < trace.gas →
        trace.struct_logs.find? (fun o => config.unimplemented_opcodes.contains o)
            = some op →
        run config trace builder post
          = Except.error (StateTestError.UnimplementedOpcode (toString op))) ∧
    (∀ (config : StateTestConfig) (trace : GethTrace) (builder : Builder)
        (post : List (ℕ × AccountMatch)) (e : StateTestError),
        ¬ config.max_gas < trace.gas →
        trace.struct_logs.find? (fun o => config.unimplemented_opcodes.contains o)
            = none →
        check_post builder post = Except.error e →
        run config trace builder post = Except.error e) ∧
    List.Pairwise (fun a b => a ≠ b)
      [StateTestError.BalanceMismatch 1 2, StateTestError.NonceMismatch 1 2,
       StateTestError.CodeMismatch [1] [2], StateTestError.StorageMismatch 0 1 2,
       StateTestError.TestMaxGasLimit 3,
       StateTestError.UnimplementedOpcode (toString 0)] ∧
    (∀ e f e2 f2 : ℕ,
        StateTestError.BalanceMismatch e f = StateTestError.BalanceMismatch e2 f2 →
        e = e2 ∧ f = f2) ∧
    (∀ e f e2 f2 : ℕ,
        StateTestError.NonceMismatch e f = StateTestError.NonceMismatch e2 f2 →
        e = e2 ∧ f = f2) ∧
    (∀ e f e2 f2 : List ℕ,
        StateTestError.CodeMismatch e f = StateTestError.CodeMismatch e2 f2 →
        e = e2 ∧ f = f2) ∧
    (∀ s e f s2 e2 f2 : ℕ,
        StateTestError.StorageMismatch s e f = StateTestError.StorageMismatch s2 e2 f2 →
        s = s2 ∧ e = e2 ∧ f = f2) := by
  refine ⟨?_, ?_, ?_, ?_, ?_, ?_, ?_, ?_⟩
  · intro config trace builder post hlt
    simp only [run]
    rw [if_pos hlt]
  · intro config trace builder post op hlt hfind
    simp only [run]
    rw [if_neg hlt, hfind]
  · intro config trace builder post e hlt hfind hcp
    simp only [run]
    rw [if_neg hlt, hfind, hcp]
  · decide
  · intro e f e2 f2 h
    simpa using h
  · intro e f e2 f2 h
    simpa using h
  · intro e f e2 f2 h
    simpa using h
  · intro s e f s2 e2 f2 h
    simpa using h

/-- Witness for C9: at the concrete over-gas configuration, the test fails with
the gas-limit error carrying the observed gas. -/
theorem c9_error_reporting_witness :
    run cfgEx traceEx bEx [] = Except.error (StateTestError.TestMaxGasLimit 9) :=
  c9_error_reporting.1 cfgEx traceEx bEx [] (by norm_num [cfgEx, traceEx])

/-- Counterexample to claim C9 as stated: not every error kind carries an
expected-versus-found pair.  Two configurations with different gas caps (3 and
2), both exceeded by the same trace, fail with the identical
`TestMaxGasLimit 9` value, which records only the found gas; and two
configurations with different unimplemented-opcode sets, both hit by opcode 7,
fail with the identical `UnimplementedOpcode` value, which records only the
found opcode. -/
theorem c9_counterexample :
    run cfgEx traceEx bEx []
        = Except.error (StateTestError.TestMaxGasLimit 9)
      ∧ run { max_gas := 2, unimplemented_opcodes := [] } traceEx bEx []
          = Except.error (StateTestError.TestMaxGasLimit 9)
      ∧ run { max_gas := 99, unimplemented_opcodes := [7] }
            { gas := 1, struct_logs := [7] } bEx []
          = Except.error (StateTestError.UnimplementedOpcode (toString 7))
      ∧ run { max_gas := 99, unimplemented_opcodes := [5, 7] }
            { gas := 1, struct_logs := [7] } bEx []
          = Except.error (StateTestError.UnimplementedOpcode (toString 7)) := by
  refine ⟨?_, ?_, ?_, ?_⟩ <;> rfl
